import Mathlib

/-!
Verification development for `openGL_practice/main.cpp` (model-loading
OpenGL tutorial program).  The program's observable behaviour is embedded
shallowly: the sequence of library calls issued by `main` becomes a trace
of `GLCmd` values, the global mutable state (camera, timing scalars, the
window's should-close flag, the mouse-callback history) becomes explicit
state records, and the render loop becomes a recursion over a finite list
of per-frame inputs.  Machine floats are modelled by exact rationals.
-/

namespace OpenGLPractice

/-- A 3-component vector over ℚ, modelling `glm::vec3`. -/
structure Vec3 where
  x : ℚ
  y : ℚ
  z : ℚ
  deriving DecidableEq, Repr

instance : Add Vec3 where
  add u v := ⟨u.x + v.x, u.y + v.y, u.z + v.z⟩

instance : Sub Vec3 where
  sub u v := ⟨u.x - v.x, u.y - v.y, u.z - v.z⟩

instance : SMul ℚ Vec3 where
  smul a v := ⟨a * v.x, a * v.y, a * v.z⟩

/-- Euclidean inner product on `Vec3`. -/
def Vec3.dot (u v : Vec3) : ℚ :=
  u.x * v.x + u.y * v.y + u.z * v.z

/-- The four movement directions accepted by the camera helper
(`FORWARD`, `BACKWARD`, `LEFT`, `RIGHT` in `camera.h`). -/
inductive CameraMovement where
  | FORWARD
  | BACKWARD
  | LEFT
  | RIGHT
  deriving DecidableEq, Repr

/-- Modelled from the spec: the external `Camera` helper (`camera.h`, not
present under `src/`).  The spec says the camera state is "position,
orientation, zoom — mutated every frame by keyboard and mouse callbacks"
and that "W/A/S/D drive camera movement", monotonically in the expected
direction for each key, scaled by the frame's delta time.  The state
carries the position, the forward and right orientation axes, the zoom,
and a movement-speed scalar. -/
structure Camera where
  Position : Vec3
  Front : Vec3
  Right : Vec3
  Zoom : ℚ
  MovementSpeed : ℚ
  deriving DecidableEq, Repr

/-- Modelled from the spec: `Camera::ProcessKeyboard` of the external
`camera.h` helper.  Each direction moves the position along the matching
orientation axis by `MovementSpeed * deltaTime`: forward/backward along
`Front`, left/right along `Right`. -/
def Camera.ProcessKeyboard (c : Camera) (dir : CameraMovement) (dt : ℚ) : Camera :=
  let v := c.MovementSpeed * dt
  match dir with
  | .FORWARD => { c with Position := c.Position + v • c.Front }
  | .BACKWARD => { c with Position := c.Position - v • c.Front }
  | .LEFT => { c with Position := c.Position - v • c.Right }
  | .RIGHT => { c with Position := c.Position + v • c.Right }

/-- The global `camera` object, constructed at `main.cpp:41` as
`Camera(glm::vec3(0.0f, 0.0f, 3.0f))`.  Orientation axes, zoom and speed
are the helper's defaults, modelled from the spec (camera looks down the
negative z axis; zoom 45; a positive movement speed). -/
def camera0 : Camera :=
  { Position := ⟨0, 0, 3⟩
    Front := ⟨0, 0, -1⟩
    Right := ⟨1, 0, 0⟩
    Zoom := 45
    MovementSpeed := 5 / 2 }

/-- The per-frame keyboard snapshot observed through `glfwGetKey`:
whether each of Escape, W, S, A, D reads `GLFW_PRESS`. -/
structure Keys where
  esc : Bool
  w : Bool
  s : Bool
  a : Bool
  d : Bool
  deriving DecidableEq, Repr

/-- `processInput` (`main.cpp:162-175`): if Escape is pressed the window's
should-close flag is set; each of W/S/A/D pressed forwards the matching
direction to `camera.ProcessKeyboard` with the current `deltaTime`.
Returns the updated should-close flag and camera. -/
def processInput (ks : Keys) (shouldClose : Bool) (cam : Camera) (dt : ℚ) :
    Bool × Camera :=
  let sc := if ks.esc then true else shouldClose
  let cam := if ks.w then cam.ProcessKeyboard .FORWARD dt else cam
  let cam := if ks.s then cam.ProcessKeyboard .BACKWARD dt else cam
  let cam := if ks.a then cam.ProcessKeyboard .LEFT dt else cam
  let cam := if ks.d then cam.ProcessKeyboard .RIGHT dt else cam
  (sc, cam)

/-- The globals read and written by `mouse_callback`
(`main.cpp:42-44`): `lastX`, `lastY`, `firstMouse`. -/
structure MouseState where
  lastX : ℚ
  lastY : ℚ
  firstMouse : Bool
  deriving DecidableEq, Repr

/-- Initial values of the mouse globals (`main.cpp:42-44`):
`lastX = SCR_WIDTH / 2 = 400`, `lastY = SCR_HEIGHT / 2 = 300`,
`firstMouse = true`. -/
def mouseState0 : MouseState :=
  { lastX := 400, lastY := 300, firstMouse := true }

/-- `mouse_callback` (`main.cpp:189-205`): on the first event the stored
position is first overwritten with the event position (so the computed
offsets are zero), then `xoffset = xpos - lastX`, `yoffset = lastY - ypos`
(y reversed), the stored position is updated, and the offsets are passed
to `camera.ProcessMouseMovement`.  Returns the updated globals and the
offset pair handed to the camera. -/
def mouse_callback (st : MouseState) (xpos ypos : ℚ) : MouseState × (ℚ × ℚ) :=
  let st1 := if st.firstMouse then
      { lastX := xpos, lastY := ypos, firstMouse := false }
    else st
  let xoffset := xpos - st1.lastX
  let yoffset := st1.lastY - ypos
  ({ lastX := xpos, lastY := ypos, firstMouse := false }, (xoffset, yoffset))

/-- One observable library call issued by the program.  The vocabulary is
the OpenGL/GLFW API surface the tutorial family uses; `glUniform4f` and
`glBufferData` belong to that surface (direct uniform/vertex uploads) but,
as the theorems below establish, are never issued by this translation
unit, whose shading and geometry go through the external `Shader` and
`Model` helpers. -/
inductive GLCmd where
  | glfwInit
  | printMsg (msg : String)
  | glfwTerminate
  | windowHint (hint : String)
  | glfwCreateWindow (w h : ℕ) (title : String)
  | glfwMakeContextCurrent
  | setFramebufferSizeCallback
  | setCursorPosCallback
  | setScrollCallback
  | glfwSetInputMode
  | glewInit
  | glfwDestroyWindow
  | stbiSetFlipVerticallyOnLoad (b : Bool)
  | glEnable (cap : String)
  | shaderLoad (vsPath fsPath : String)
  | modelLoad (path : String)
  | glfwGetTime (t : ℚ)
  | processInputCall
  | glClearColor (r g b a : ℚ)
  | glClear
  | shaderUse
  | setMat4 (uniformName : String)
  | glUniform4f (uniformName : String) (r g b a : ℚ)
  | glBufferData (data : List ℚ)
  | modelDraw
  | glfwSwapBuffers
  | glfwPollEvents
  deriving DecidableEq, Repr

/-- The external events feeding one render-loop iteration: the keyboard
snapshot read by `processInput`, whether `glfwPollEvents` delivers a
window-close request (e.g. the close button), and the value returned by
`glfwGetTime`. -/
structure FrameInput where
  keys : Keys
  closeEvent : Bool
  time : ℚ
  deriving DecidableEq, Repr

/-- The mutable program state threaded through the render loop: the
window's should-close flag, the global camera, and the two timing
globals `deltaTime` and `lastFrame` (`main.cpp:47-48`). -/
structure ProgState where
  shouldClose : Bool
  cam : Camera
  deltaTime : ℚ
  lastFrame : ℚ
  deriving DecidableEq, Repr

/-- The program state on entry to the render loop: flag clear, the global
camera, both timing globals zero (`main.cpp:47-48`). -/
def progState0 : ProgState :=
  { shouldClose := false, cam := camera0, deltaTime := 0, lastFrame := 0 }

/-- One iteration of the render loop body (`main.cpp:115-155`): read the
time and recompute the timing scalars, run `processInput`, clear, bind the
shader, set the `projection`, `view` and `model` matrix uniforms, draw the
model, swap buffers, poll events (which may deliver a close request).
Returns the updated state and the commands issued. -/
def frameStep (st : ProgState) (f : FrameInput) : ProgState × List GLCmd :=
  let t := f.time
  let dt := t - st.lastFrame
  let pi := processInput f.keys st.shouldClose st.cam dt
  let st' : ProgState :=
    { shouldClose := pi.1 || f.closeEvent
      cam := pi.2
      deltaTime := dt
      lastFrame := t }
  (st',
    [.glfwGetTime t, .processInputCall,
     .glClearColor (1/20) (1/20) (1/20) 1, .glClear,
     .shaderUse, .setMat4 "projection", .setMat4 "view", .setMat4 "model",
     .modelDraw, .glfwSwapBuffers, .glfwPollEvents])

/-- The render loop (`main.cpp:114-155`): while the should-close flag is
clear, run one `frameStep` on the next frame input.  The loop is driven by
a finite list of frame inputs; the returned flag records whether the loop
has exited (guard observed true).  When the input list runs out with the
guard still false the loop is still live and the flag is `false`. -/
def runLoop (st : ProgState) : List FrameInput → ProgState × List GLCmd × Bool
  | [] => (st, [], st.shouldClose)
  | f :: rest =>
    if st.shouldClose then (st, [], true)
    else
      let p := frameStep st f
      let q := runLoop p.1 rest
      (q.1, p.2 ++ q.2.1, q.2.2)

/-- The environment one execution of `main` runs against: whether each
initialization call succeeds, whether the external shader build (the
`Shader` constructor) succeeds, and the per-frame inputs. -/
structure Env where
  glfwInitOk : Bool
  createWindowOk : Bool
  glewInitOk : Bool
  shaderOk : Bool
  inputs : List FrameInput
  deriving DecidableEq, Repr

/-- The five `glfwWindowHint` calls (`main.cpp:64-68`). -/
def hintCmds : List GLCmd :=
  [.windowHint "GLFW_CONTEXT_VERSION_MAJOR",
   .windowHint "GLFW_CONTEXT_VERSION_MINOR",
   .windowHint "GLFW_OPENGL_PROFILE",
   .windowHint "GLFW_OPENGL_FORWARD_COMPAT",
   .windowHint "GLFW_RESIZABLE"]

/-- Modelled from the spec: the external `Shader` constructor
(`shader_m.h`, not present under `src/`) compiles and links the two shader
files; per the spec, "shader compile/link failures are logged (at most)
and the program proceeds regardless".  On failure it emits a log line and
returns; it never terminates the process or reports failure to `main`. -/
def shaderBuildCmds (ok : Bool) : List GLCmd :=
  .shaderLoad "model_loading.vs" "model_loading.fs" ::
    (if ok then [] else [.printMsg "ERROR::SHADER compile/link failed"])

/-- The startup commands issued when all three initialization calls
succeed (`main.cpp:51-111`), up to and including loading the model,
parametrized by whether the external shader build succeeds. -/
def okPrefix (shaderOk : Bool) : List GLCmd :=
  .glfwInit :: hintCmds ++
    [.glfwCreateWindow 800 600 "LearnOpenGL", .glfwMakeContextCurrent,
     .setFramebufferSizeCallback, .setCursorPosCallback,
     .setScrollCallback, .glfwSetInputMode, .glewInit,
     .stbiSetFlipVerticallyOnLoad true, .glEnable "GL_DEPTH_TEST"] ++
    shaderBuildCmds shaderOk ++
    [.modelLoad "LibertStatue.obj"]

/-- The trace of the GLFW-initialization failure path
(`main.cpp:54-59`): log, terminate, return 1. -/
def glfwInitFailTrace : List GLCmd :=
  [.glfwInit, .printMsg "GLFW initialization failed!", .glfwTerminate]

/-- The trace of the window-creation failure path (`main.cpp:74-80`). -/
def windowFailTrace : List GLCmd :=
  .glfwInit :: hintCmds ++
    [.glfwCreateWindow 800 600 "LearnOpenGL",
     .printMsg "GLFW window creation failed!", .glfwTerminate]

/-- The trace of the GLEW-initialization failure path
(`main.cpp:90-96`): log, destroy the window, terminate, return 1. -/
def glewFailTrace : List GLCmd :=
  .glfwInit :: hintCmds ++
    [.glfwCreateWindow 800 600 "LearnOpenGL", .glfwMakeContextCurrent,
     .setFramebufferSizeCallback, .setCursorPosCallback,
     .setScrollCallback, .glfwSetInputMode, .glewInit,
     .printMsg "GLEW initialization failed!",
     .glfwDestroyWindow, .glfwTerminate]

/-- `main` (`main.cpp:51-160`) as a function of its environment: the trace
of commands issued, and the exit code — `some c` when `main` returns with
code `c`, `none` when the supplied frame inputs are exhausted with the
render loop still running (the execution has not returned yet). -/
def mainRun (env : Env) : List GLCmd × Option ℤ :=
  if !env.glfwInitOk then
    (glfwInitFailTrace, some 1)
  else if !env.createWindowOk then
    (windowFailTrace, some 1)
  else if !env.glewInitOk then
    (glewFailTrace, some 1)
  else
    let q := runLoop progState0 env.inputs
    if q.2.2 then (okPrefix env.shaderOk ++ q.2.1 ++ [.glfwTerminate], some 0)
    else (okPrefix env.shaderOk ++ q.2.1, none)

/-- Commands that occur only inside a render-loop iteration: per-frame
timing, input processing, clearing, program binding, uniform updates,
vertex uploads, draws, buffer swaps and event polling. -/
def GLCmd.isFrameCmd : GLCmd → Bool
  | .glfwGetTime _ | .processInputCall | .glClearColor _ _ _ _ | .glClear
  | .shaderUse | .setMat4 _ | .glUniform4f _ _ _ _ _ | .glBufferData _
  | .modelDraw | .glfwSwapBuffers | .glfwPollEvents => true
  | _ => false

/-- Commands that update a shader uniform. -/
def GLCmd.isSetUniform : GLCmd → Bool
  | .setMat4 _ | .glUniform4f _ _ _ _ _ => true
  | _ => false

/-- Commands that set a scalar/color (vec4) uniform — the kind of command
a `green = sin(t)/2 + 0.5` update would be. -/
def GLCmd.isColorUniform : GLCmd → Bool
  | .glUniform4f _ _ _ _ _ => true
  | _ => false

/-- Commands that hand geometry to the GPU: loading the external model,
or uploading raw vertex/index data directly. -/
def GLCmd.isGeometry : GLCmd → Bool
  | .modelLoad _ | .glBufferData _ => true
  | _ => false

/-- Direct raw vertex/index uploads only. -/
def GLCmd.isBufferUpload : GLCmd → Bool
  | .glBufferData _ => true
  | _ => false

/-- Diagnostic log output. -/
def GLCmd.isLog : GLCmd → Bool
  | .printMsg _ => true
  | _ => false

/-- The step a command performs, forgetting its payload; used to state
that every loop iteration issues the same fixed sequence of steps. -/
def GLCmd.stepName : GLCmd → String
  | .glfwGetTime _ => "getTime"
  | .processInputCall => "processInput"
  | .glClearColor _ _ _ _ => "clearColor"
  | .glClear => "clear"
  | .shaderUse => "useProgram"
  | .setMat4 _ => "setUniform"
  | .glUniform4f _ _ _ _ _ => "setUniform"
  | .glBufferData _ => "bufferData"
  | .modelDraw => "draw"
  | .glfwSwapBuffers => "swapBuffers"
  | .glfwPollEvents => "pollEvents"
  | _ => "other"

/-- `initOk env` iff all three initialization calls succeed. -/
def initOk (env : Env) : Bool :=
  env.glfwInitOk && env.createWindowOk && env.glewInitOk

/-- A keyboard snapshot with no key pressed. -/
def noKeys : Keys :=
  { esc := false, w := false, s := false, a := false, d := false }

/-- A snapshot with only Escape pressed. -/
def escKeys : Keys :=
  { esc := true, w := false, s := false, a := false, d := false }

/-- A snapshot with only W pressed. -/
def keysW : Keys :=
  { esc := false, w := true, s := false, a := false, d := false }

/-- A snapshot with only S pressed. -/
def keysS : Keys :=
  { esc := false, w := false, s := true, a := false, d := false }

/-- A snapshot with only A pressed. -/
def keysA : Keys :=
  { esc := false, w := false, s := false, a := true, d := false }

/-- A snapshot with only D pressed. -/
def keysD : Keys :=
  { esc := false, w := false, s := false, a := false, d := true }

/-- A concrete idle frame input. -/
def sampleFrame : FrameInput :=
  { keys := noKeys, closeEvent := false, time := 1 }

/-- A concrete frame input with Escape pressed. -/
def escFrame : FrameInput :=
  { keys := escKeys, closeEvent := false, time := 1 }

/-- A concrete environment in which every initialization step succeeds
and the single frame presses Escape, so the loop exits. -/
def sampleEnv : Env :=
  { glfwInitOk := true, createWindowOk := true, glewInitOk := true,
    shaderOk := true, inputs := [escFrame] }

@[simp]
lemma Vec3.add_x (u v : Vec3) : (u + v).x = u.x + v.x := rfl

@[simp]
lemma Vec3.add_y (u v : Vec3) : (u + v).y = u.y + v.y := rfl

@[simp]
lemma Vec3.add_z (u v : Vec3) : (u + v).z = u.z + v.z := rfl

@[simp]
lemma Vec3.sub_x (u v : Vec3) : (u - v).x = u.x - v.x := rfl

@[simp]
lemma Vec3.sub_y (u v : Vec3) : (u - v).y = u.y - v.y := rfl

@[simp]
lemma Vec3.sub_z (u v : Vec3) : (u - v).z = u.z - v.z := rfl

@[simp]
lemma Vec3.smul_x (a : ℚ) (v : Vec3) : (a • v).x = a * v.x := rfl

@[simp]
lemma Vec3.smul_y (a : ℚ) (v : Vec3) : (a • v).y = a * v.y := rfl

@[simp]
lemma Vec3.smul_z (a : ℚ) (v : Vec3) : (a • v).z = a * v.z := rfl

/-- Moving from `u` by `a • w` displaces by `a * (w ⬝ w)` along `w`. -/
lemma Vec3.dot_add_smul_sub (u w : Vec3) (a : ℚ) :
    Vec3.dot ((u + a • w) - u) w = a * Vec3.dot w w := by
  simp [Vec3.dot]
  ring

/-- Moving from `u` by `-(a • w)` displaces by `-(a * (w ⬝ w))` along `w`. -/
lemma Vec3.dot_sub_smul_sub (u w : Vec3) (a : ℚ) :
    Vec3.dot ((u - a • w) - u) w = -(a * Vec3.dot w w) := by
  simp [Vec3.dot]
  ring

/-- Every command a loop iteration issues is a per-frame command: not a
geometry upload, not a log line, and neither `glfwTerminate` nor
`glfwDestroyWindow`. -/
lemma frameStep_mem (st : ProgState) (f : FrameInput) (c : GLCmd)
    (h : c ∈ (frameStep st f).2) :
    c.isFrameCmd = true ∧ c.isGeometry = false ∧ c.isLog = false ∧
      c ≠ .glfwTerminate ∧ c ≠ .glfwDestroyWindow := by
  simp only [frameStep, List.mem_cons, List.mem_singleton,
    List.not_mem_nil, or_false] at h
  rcases h with rfl | rfl | rfl | rfl | rfl | rfl | rfl | rfl | rfl | rfl | rfl <;>
    exact ⟨rfl, rfl, rfl, by simp, by simp⟩

/-- The same flags hold for every command in the whole loop trace. -/
lemma runLoop_mem (fs : List FrameInput) :
    ∀ (st : ProgState) (c : GLCmd), c ∈ (runLoop st fs).2.1 →
      c.isFrameCmd = true ∧ c.isGeometry = false ∧ c.isLog = false ∧
        c ≠ .glfwTerminate ∧ c ≠ .glfwDestroyWindow := by
  induction fs with
  | nil => intro st c h; simp [runLoop] at h
  | cons f rest ih =>
    intro st c h
    simp only [runLoop] at h
    by_cases hsc : st.shouldClose = true
    · simp [hsc] at h
    · simp only [hsc, if_false] at h
      rcases List.mem_append.mp h with h1 | h1
      · exact frameStep_mem st f c h1
      · exact ih (frameStep st f).1 c h1

/-- The loop trace never contains `glfwTerminate`. -/
lemma runLoop_count_terminate (fs : List FrameInput) (st : ProgState) :
    ((runLoop st fs).2.1).count GLCmd.glfwTerminate = 0 := by
  rw [List.count_eq_zero]
  intro h
  exact absurd rfl (runLoop_mem fs st _ h).2.2.2.1

/-- The loop trace contains no geometry command. -/
lemma runLoop_filter_geometry (fs : List FrameInput) (st : ProgState) :
    ((runLoop st fs).2.1).filter (fun c => c.isGeometry) = [] := by
  rw [List.filter_eq_nil_iff]
  intro c hc
  simp [(runLoop_mem fs st c hc).2.1]

/-- Once the should-close flag holds, the loop runs no frame at all. -/
lemma runLoop_closed (fs : List FrameInput) (st : ProgState)
    (h : st.shouldClose = true) : runLoop st fs = (st, [], true) := by
  cases fs with
  | nil => simp [runLoop, h]
  | cons f rest => simp [runLoop, h]

/-- C8: every render-loop iteration performs the same fixed sequence of
steps with no branching beyond input polling — read the time and recompute
the two timing scalars, process input, clear the frame, bind the shader
program, set the view/projection/model matrix uniforms, issue the draw
call, swap buffers, poll events — and the timing state retains no history
beyond the previous frame time: `deltaTime` is the current time minus the
previous `lastFrame`, and `lastFrame` becomes the current time. -/
theorem frame_step_fixed_sequence (st : ProgState) (f : FrameInput) :
    ((frameStep st f).2).map GLCmd.stepName =
      ["getTime", "processInput", "clearColor", "clear", "useProgram",
        "setUniform", "setUniform", "setUniform", "draw", "swapBuffers",
        "pollEvents"] ∧
    (frameStep st f).1.deltaTime = f.time - st.lastFrame ∧
    (frameStep st f).1.lastFrame = f.time :=
  ⟨rfl, rfl, rfl⟩

/-- C5 (counterexample): the render loop of this program does not set any
scalar/color uniform at all — in particular no uniform following
`green = sin(t)/2 + 0.5` — as shown on a concrete frame: no command of
the iteration is a color-uniform update. -/
theorem frame_sets_no_color_uniform :
    ¬ ∃ c ∈ (frameStep progState0 sampleFrame).2, c.isColorUniform = true := by
  decide

/-- C5 (amended): the uniform updates a render-loop iteration performs are
exactly the three matrix uniforms `projection`, `view` and `model`; no
time-varying color uniform is set in this variant. -/
theorem frame_uniform_updates_are_matrices (st : ProgState) (f : FrameInput) :
    ((frameStep st f).2).filter (fun c => c.isSetUniform) =
      [.setMat4 "projection", .setMat4 "view", .setMat4 "model"] :=
  rfl

/-- C9: `mouse_callback` leaves `firstMouse` false and `lastX`/`lastY`
equal to the event position after every call; from the initial state
(where `firstMouse` is true, so the very first event) the offsets handed
to the camera are `(0, 0)`, and from any later state the offsets are
`(xpos - lastX, lastY - ypos)` — the y delta reversed. -/
theorem mouse_callback_offsets :
    mouseState0.firstMouse = true ∧
    ∀ (st : MouseState) (xpos ypos : ℚ),
      (mouse_callback st xpos ypos).1 =
        { lastX := xpos, lastY := ypos, firstMouse := false } ∧
      (st.firstMouse = true → (mouse_callback st xpos ypos).2 = (0, 0)) ∧
      (st.firstMouse = false →
        (mouse_callback st xpos ypos).2 = (xpos - st.lastX, st.lastY - ypos)) := by
  refine ⟨rfl, fun st xpos ypos => ⟨rfl, fun h => ?_, fun h => ?_⟩⟩
  · simp [mouse_callback, h]
  · simp [mouse_callback, h]

/-- C9 (witness): on a concrete first event the offsets are zero. -/
theorem mouse_callback_offsets_witness :
    (mouse_callback mouseState0 10 20).2 = (0, 0) :=
  (mouse_callback_offsets.2 mouseState0 10 20).2.1 rfl

/-- C3: in any iteration whose input observes Escape as pressed,
`processInput` sets the window's should-close flag, and the loop guard
fails at the next check: the loop terminates right after that frame,
whatever inputs would have followed. -/
theorem escape_sets_close_and_loop_terminates (st : ProgState)
    (f : FrameInput) (rest rest' : List FrameInput)
    (hsc : st.shouldClose = false) (hesc : f.keys.esc = true) :
    (frameStep st f).1.shouldClose = true ∧
    runLoop st (f :: rest) = ((frameStep st f).1, (frameStep st f).2, true) ∧
    runLoop st (f :: rest) = runLoop st (f :: rest') := by
  have hflag : (frameStep st f).1.shouldClose = true := by
    simp [frameStep, processInput, hesc]
  refine ⟨hflag, ?_, ?_⟩
  · simp only [runLoop, hsc, Bool.false_eq_true, if_false]
    rw [runLoop_closed rest _ hflag]
    simp
  · simp only [runLoop, hsc, Bool.false_eq_true, if_false]
    rw [runLoop_closed rest _ hflag, runLoop_closed rest' _ hflag]

/-- C3 (witness): from the loop-entry state, a concrete Escape frame sets
the flag. -/
theorem escape_sets_close_witness :
    (frameStep progState0 escFrame).1.shouldClose = true :=
  (escape_sets_close_and_loop_terminates progState0 escFrame [] [sampleFrame]
    rfl rfl).1

/-- C4: each of the W/S/A/D key inputs processed during a frame moves the
camera monotonically in the expected direction, by an amount scaled by the
frame's `deltaTime`: W displaces positively along the camera's forward
axis, S negatively, A negatively along the right axis, D positively. -/
theorem wasd_camera_monotonic (cam : Camera) (sc : Bool) (dt : ℚ)
    (hdt : 0 < dt) (hsp : 0 < cam.MovementSpeed)
    (hf : 0 < Vec3.dot cam.Front cam.Front)
    (hr : 0 < Vec3.dot cam.Right cam.Right) :
    0 < Vec3.dot ((processInput keysW sc cam dt).2.Position - cam.Position)
        cam.Front ∧
    Vec3.dot ((processInput keysS sc cam dt).2.Position - cam.Position)
        cam.Front < 0 ∧
    Vec3.dot ((processInput keysA sc cam dt).2.Position - cam.Position)
        cam.Right < 0 ∧
    0 < Vec3.dot ((processInput keysD sc cam dt).2.Position - cam.Position)
        cam.Right := by
  have hv : 0 < cam.MovementSpeed * dt := mul_pos hsp hdt
  have hW : (processInput keysW sc cam dt).2 = cam.ProcessKeyboard .FORWARD dt := by
    simp [processInput, keysW]
  have hS : (processInput keysS sc cam dt).2 = cam.ProcessKeyboard .BACKWARD dt := by
    simp [processInput, keysS]
  have hA : (processInput keysA sc cam dt).2 = cam.ProcessKeyboard .LEFT dt := by
    simp [processInput, keysA]
  have hD : (processInput keysD sc cam dt).2 = cam.ProcessKeyboard .RIGHT dt := by
    simp [processInput, keysD]
  refine ⟨?_, ?_, ?_, ?_⟩
  · rw [hW, show (cam.ProcessKeyboard .FORWARD dt).Position =
      cam.Position + (cam.MovementSpeed * dt) • cam.Front from rfl,
      Vec3.dot_add_smul_sub]
    exact mul_pos hv hf
  · rw [hS, show (cam.ProcessKeyboard .BACKWARD dt).Position =
      cam.Position - (cam.MovementSpeed * dt) • cam.Front from rfl,
      Vec3.dot_sub_smul_sub]
    exact neg_lt_zero.mpr (mul_pos hv hf)
  · rw [hA, show (cam.ProcessKeyboard .LEFT dt).Position =
      cam.Position - (cam.MovementSpeed * dt) • cam.Right from rfl,
      Vec3.dot_sub_smul_sub]
    exact neg_lt_zero.mpr (mul_pos hv hr)
  · rw [hD, show (cam.ProcessKeyboard .RIGHT dt).Position =
      cam.Position + (cam.MovementSpeed * dt) • cam.Right from rfl,
      Vec3.dot_add_smul_sub]
    exact mul_pos hv hr

/-- C4 (witness): W on the concrete startup camera with `deltaTime = 1`
moves the camera strictly forward. -/
theorem wasd_camera_monotonic_witness :
    0 < Vec3.dot ((processInput keysW false camera0 1).2.Position -
        camera0.Position) camera0.Front :=
  (wasd_camera_monotonic camera0 false 1 (by norm_num)
    (by norm_num [camera0]) (by norm_num [camera0, Vec3.dot])
    (by norm_num [camera0, Vec3.dot])).1

/-- C1: `main` returns exit code 1 whenever any initialization step
(GLFW init, window/context creation, GLEW init) fails, exit code 0
whenever initialization succeeds and the render loop exits (the
should-close flag becomes set), and no exit code other than 0 or 1 is
ever returned. -/
theorem main_exit_code_zero_or_one (env : Env) :
    (initOk env = false → (mainRun env).2 = some 1) ∧
    (initOk env = true → (runLoop progState0 env.inputs).2.2 = true →
      (mainRun env).2 = some 0) ∧
    (∀ z : ℤ, (mainRun env).2 = some z → z = 0 ∨ z = 1) := by
  obtain ⟨g, w, e, sOk, inp⟩ := env
  cases g with
  | false =>
    exact ⟨fun _ => rfl, fun h _ => by simp [initOk] at h,
      fun z hz => Or.inr (Option.some.inj hz).symm⟩
  | true =>
    cases w with
    | false =>
      exact ⟨fun _ => rfl, fun h _ => by simp [initOk] at h,
        fun z hz => Or.inr (Option.some.inj hz).symm⟩
    | true =>
      cases e with
      | false =>
        exact ⟨fun _ => rfl, fun h _ => by simp [initOk] at h,
          fun z hz => Or.inr (Option.some.inj hz).symm⟩
      | true =>
        refine ⟨fun h => by simp [initOk] at h, fun _ hdone => ?_,
          fun z hz => ?_⟩
        · simp [mainRun, hdone]
        · cases hq : (runLoop progState0 inp).2.2 with
          | false => simp [mainRun, hq] at hz
          | true =>
            left
            have h0 : (mainRun ⟨true, true, true, sOk, inp⟩).2 = some 0 := by
              simp [mainRun, hq]
            rw [h0] at hz
            exact (Option.some.inj hz).symm

/-- C1 (witness): in the concrete all-successful environment whose single
frame presses Escape, `main` exits with code 0. -/
theorem main_exit_code_witness : (mainRun sampleEnv).2 = some 0 :=
  (main_exit_code_zero_or_one sampleEnv).2.1 rfl rfl

/-- C2: whenever an initialization step fails, `main` returns the
documented exit code 1 and the trace contains no per-frame command at
all — no render-loop iteration, no clear, no draw, no buffer swap. -/
theorem init_failure_returns_before_drawing (env : Env)
    (h : initOk env = false) :
    (mainRun env).2 = some 1 ∧
    ∀ c ∈ (mainRun env).1, c.isFrameCmd = false := by
  obtain ⟨g, w, e, sOk, inp⟩ := env
  cases g with
  | false =>
    refine ⟨rfl, ?_⟩
    show ∀ c ∈ glfwInitFailTrace, c.isFrameCmd = false
    decide
  | true =>
    cases w with
    | false =>
      refine ⟨rfl, ?_⟩
      show ∀ c ∈ windowFailTrace, c.isFrameCmd = false
      decide
    | true =>
      cases e with
      | false =>
        refine ⟨rfl, ?_⟩
        show ∀ c ∈ glewFailTrace, c.isFrameCmd = false
        decide
      | true => simp [initOk] at h

/-- A concrete environment whose GLFW initialization fails. -/
def glfwFailEnv : Env :=
  { glfwInitOk := false, createWindowOk := true, glewInitOk := true,
    shaderOk := true, inputs := [] }

/-- C2 (witness): a concrete GLFW-initialization failure returns 1. -/
theorem init_failure_witness : (mainRun glfwFailEnv).2 = some 1 :=
  (init_failure_returns_before_drawing glfwFailEnv rfl).1

/-- C10: on every return path of `main` — the two early
initialization-failure returns, the GLEW-failure return, and the normal
return after the render loop — `glfwTerminate` appears exactly once in
the trace, and on the GLEW-failure path the already-created window is
destroyed exactly once, before termination. -/
theorem terminate_once_on_every_return (env : Env)
    (h : ((mainRun env).2).isSome = true) :
    ((mainRun env).1).count GLCmd.glfwTerminate = 1 ∧
    (env.glfwInitOk = true → env.createWindowOk = true →
      env.glewInitOk = false →
      ((mainRun env).1).count GLCmd.glfwDestroyWindow = 1 ∧
      List.indexOf GLCmd.glfwDestroyWindow (mainRun env).1 <
        List.indexOf GLCmd.glfwTerminate (mainRun env).1) := by
  obtain ⟨g, w, e, sOk, inp⟩ := env
  cases g with
  | false =>
    refine ⟨?_, fun hg => nomatch hg⟩
    show glfwInitFailTrace.count GLCmd.glfwTerminate = 1
    decide
  | true =>
    cases w with
    | false =>
      refine ⟨?_, fun _ hw => nomatch hw⟩
      show windowFailTrace.count GLCmd.glfwTerminate = 1
      decide
    | true =>
      cases e with
      | false =>
        refine ⟨?_, fun _ _ _ => ⟨?_, ?_⟩⟩
        · show glewFailTrace.count GLCmd.glfwTerminate = 1
          decide
        · show glewFailTrace.count GLCmd.glfwDestroyWindow = 1
          decide
        · show List.indexOf GLCmd.glfwDestroyWindow glewFailTrace <
            List.indexOf GLCmd.glfwTerminate glewFailTrace
          decide
      | true =>
        refine ⟨?_, fun _ _ he => nomatch he⟩
        cases hq : (runLoop progState0 inp).2.2 with
        | false => simp [mainRun, hq] at h
        | true =>
          have htr : (mainRun ⟨true, true, true, sOk, inp⟩).1 =
              okPrefix sOk ++ (runLoop progState0 inp).2.1 ++
                [GLCmd.glfwTerminate] := by
            simp [mainRun, hq]
          rw [htr, List.count_append, List.count_append]
          have hpre : ∀ b : Bool,
              (okPrefix b).count GLCmd.glfwTerminate = 0 := by decide
          rw [hpre sOk, runLoop_count_terminate]
          decide

/-- C10 (witness): in the concrete all-successful environment that exits
after one frame, the trace contains exactly one `glfwTerminate`. -/
theorem terminate_once_witness :
    ((mainRun sampleEnv).1).count GLCmd.glfwTerminate = 1 :=
  (terminate_once_on_every_return sampleEnv rfl).1

/-- C6 (counterexample): the geometry of this program is not a hard-coded
triangle passed to the GPU: in a concrete complete execution the trace
contains no raw vertex/index upload at all, and the geometry instead
comes from loading the external model file `LibertStatue.obj`. -/
theorem main_uploads_no_raw_vertex_data :
    (¬ ∃ c ∈ (mainRun sampleEnv).1, c.isBufferUpload = true) ∧
    GLCmd.modelLoad "LibertStatue.obj" ∈ (mainRun sampleEnv).1 := by
  constructor
  · decide
  · decide

/-- C6 (amended): whenever initialization succeeds, the only geometry
acquisition the program ever performs is the single startup load of the
external model file `LibertStatue.obj` — once, before the render loop,
and never again during or after it. -/
theorem geometry_single_model_load (env : Env)
    (hg : env.glfwInitOk = true) (hw : env.createWindowOk = true)
    (he : env.glewInitOk = true) :
    ((mainRun env).1).filter (fun c => c.isGeometry) =
      [GLCmd.modelLoad "LibertStatue.obj"] := by
  obtain ⟨g, w, e, sOk, inp⟩ := env
  cases g with
  | false => exact nomatch hg
  | true =>
    cases w with
    | false => exact nomatch hw
    | true =>
      cases e with
      | false => exact nomatch he
      | true =>
        have hpre : ∀ b : Bool,
            (okPrefix b).filter (fun c => c.isGeometry) =
              [GLCmd.modelLoad "LibertStatue.obj"] := by decide
        cases hq : (runLoop progState0 inp).2.2 with
        | false =>
          have htr : (mainRun ⟨true, true, true, sOk, inp⟩).1 =
              okPrefix sOk ++ (runLoop progState0 inp).2.1 := by
            simp [mainRun, hq]
          rw [htr, List.filter_append, hpre sOk, runLoop_filter_geometry]
          rfl
        | true =>
          have htr : (mainRun ⟨true, true, true, sOk, inp⟩).1 =
              okPrefix sOk ++ (runLoop progState0 inp).2.1 ++
                [GLCmd.glfwTerminate] := by
            simp [mainRun, hq]
          rw [htr, List.filter_append, List.filter_append, hpre sOk,
            runLoop_filter_geometry]
          decide

/-- C6 (witness): the concrete all-successful execution performs exactly
one geometry command, the model load. -/
theorem geometry_single_model_load_witness :
    ((mainRun sampleEnv).1).filter (fun c => c.isGeometry) =
      [GLCmd.modelLoad "LibertStatue.obj"] :=
  geometry_single_model_load sampleEnv rfl rfl rfl

/-- C7: a shader compile/link failure is at most logged and the program
proceeds regardless: two executions differing only in whether the shader
build succeeds return the same exit code and issue the same commands
apart from log output. -/
theorem shader_failure_at_most_logged (g w e : Bool)
    (inp : List FrameInput) (ok1 ok2 : Bool) :
    (mainRun ⟨g, w, e, ok1, inp⟩).2 = (mainRun ⟨g, w, e, ok2, inp⟩).2 ∧
    ((mainRun ⟨g, w, e, ok1, inp⟩).1).filter (fun c => !c.isLog) =
      ((mainRun ⟨g, w, e, ok2, inp⟩).1).filter (fun c => !c.isLog) := by
  cases g with
  | false => exact ⟨rfl, rfl⟩
  | true =>
    cases w with
    | false => exact ⟨rfl, rfl⟩
    | true =>
      cases e with
      | false => exact ⟨rfl, rfl⟩
      | true =>
        have hpre : (okPrefix ok1).filter (fun c => !c.isLog) =
            (okPrefix ok2).filter (fun c => !c.isLog) := by
          revert ok1 ok2; decide
        cases hq : (runLoop progState0 inp).2.2 with
        | false =>
          constructor
          · simp [mainRun, hq]
          · simp [mainRun, hq, List.filter_append, hpre]
        | true =>
          constructor
          · simp [mainRun, hq]
          · simp [mainRun, hq, List.filter_append, hpre]

end OpenGLPractice
